import Mathlib

/-!
Verification of the story-clustering core of the `uae-scraper` repository
(`app/scraper/news_scraper.py`): the keyword extractor and Jaccard similarity
scorer of `TextProcessor`, and the story matcher and per-article pipeline of
`UAENewsScraper` (`find_matching_story`, `process_article`).  The external
storage collaborator (`db_manager`) is modelled as an abstract interface whose
calls may raise (encoded with `Except`); Python floats are modelled as
rationals, Python sets as `Finset`.
-/

namespace UAEScraper

/-! ## TextProcessor -/

/-- The stop-word list assembled in `TextProcessor.__init__`: common English
stop words, then the news-specific stop words, then the UAE/MENA regional
stop words (the three Python sets are unioned into `self.stop_words`). -/
def stop_words : List String :=
  ["the", "a", "an", "and", "or", "but", "in", "on", "at", "to", "for", "of", "with",
   "by", "is", "are", "was", "were", "be", "been", "being", "have", "has", "had",
   "do", "does", "did", "will", "would", "could", "should", "may", "might", "must",
   "this", "that", "these", "those", "i", "you", "he", "she", "it", "we", "they",
   "me", "him", "her", "us", "them", "my", "your", "his", "its", "our", "their",
   "news", "report", "reports", "says", "said", "according", "sources",
   "breaking", "latest", "update", "today", "yesterday", "new", "first",
   "announces", "announced", "reuters", "bloomberg", "associated", "press",
   "uae", "dubai", "abu", "dhabi", "emirates", "gulf", "middle", "east",
   "mena", "arab", "arabic", "region", "regional"]

/-- Python `str.lower()`, restricted to the alphabets the claims exercise:
uppercase letters are mapped to their lowercase form, other characters are
unchanged (`Char.toLower`). -/
def pyLower (c : Char) : Char := c.toLower

/-- A regex word character `\w` as used in `re.sub(r'[^\w\s]', ' ', ...)`:
letters, digits or underscore. -/
def isWordChar (c : Char) : Bool := c.isAlphanum || c == '_'

/-- A regex whitespace character `\s`: space, tab, newline, carriage return,
vertical tab or form feed. -/
def isSpaceChar (c : Char) : Bool :=
  c == ' ' || c == '\t' || c == '\n' || c == '\r' ||
  c == Char.ofNat 11 || c == Char.ofNat 12

/-- One character of `re.sub(r'[^\w\s]', ' ', text.lower())`: lowercase first,
then replace anything that is neither a word character nor whitespace by a
space. -/
def cleanChar (c : Char) : Char :=
  let l := pyLower c
  if isWordChar l || isSpaceChar l then l else ' '

/-- Python `str.split()` (no separator): the maximal whitespace-free runs, in
order, empty runs discarded.  The intermediate
`re.sub(r'\s+', ' ', text).strip()` of the source only collapses whitespace
and so does not change this token list. -/
def splitTokens : List Char → List Char → List (List Char)
  | [], acc => if acc.isEmpty then [] else [acc.reverse]
  | c :: cs, acc =>
    if isSpaceChar c then
      if acc.isEmpty then splitTokens cs [] else acc.reverse :: splitTokens cs []
    else splitTokens cs (c :: acc)

/-- A purely numeric token: `word.isdigit()` and `re.match(r'^[0-9]+$', word)`
coincide on the tokens produced here (nonempty and every character a digit). -/
def isAllDigits (w : List Char) : Bool := !w.isEmpty && w.all Char.isDigit

/-- The keyword filter from the loop body of `TextProcessor.extract_keywords`:
keep a token iff its length is at least `min_length`, it is not a stop word
and it is not purely numeric.  (`word.strip()` in `keywords.add(word.strip())`
is the identity on whitespace-free tokens.) -/
def keepKeyword (min_length : Nat) (w : List Char) : Bool :=
  decide (min_length ≤ w.length) && !(decide (String.mk w ∈ stop_words)) &&
    !(isAllDigits w)

/-- `TextProcessor.extract_keywords`: lowercase the text, replace every
character outside `\w`/`\s` by a space, split on whitespace, and collect the
tokens passing the keyword filter into a set.  An empty text yields the empty
set (the `if not text` guard is subsumed: splitting the empty text yields no
tokens). -/
def extract_keywords (text : String) (min_length : Nat := 3) : Finset String :=
  (((splitTokens (text.data.map cleanChar) []).filter
      (keepKeyword min_length)).map String.mk).toFinset

/-- `TextProcessor.calculate_similarity`: Jaccard similarity of two keyword
sets; if either set is empty the result is `0.0`, otherwise
`|intersection| / |union|` (with the source's redundant `union > 0` guard). -/
def calculate_similarity (keywords1 keywords2 : Finset String) : ℚ :=
  if keywords1 = ∅ ∨ keywords2 = ∅ then 0
  else
    let intersection := (keywords1 ∩ keywords2).card
    let union := (keywords1 ∪ keywords2).card
    if 0 < union then (intersection : ℚ) / union else 0

/-! ## Lemmas about the keyword extractor -/

lemma toLower_isUpper_eq_false (c : Char) : c.toLower.isUpper = false := by
  simp only [Char.toLower, Char.isUpper]
  split
  next h =>
    obtain ⟨h1, h2⟩ := h
    generalize hn : c.toNat = n at h1 h2
    interval_cases n <;> decide
  next h =>
    have conv65 : ((65 : UInt32) ≤ c.val) ↔ (65 ≤ c.toNat) := by
      rw [UInt32.le_def, BitVec.le_def]
      norm_num [Char.toNat, UInt32.toNat]
    have conv90 : (c.val ≤ (90 : UInt32)) ↔ (c.toNat ≤ 90) := by
      rw [UInt32.le_def, BitVec.le_def]
      norm_num [Char.toNat, UInt32.toNat]
    rw [Bool.and_eq_false_iff]
    by_cases h1 : 65 ≤ c.toNat
    · right
      simp only [decide_eq_false_iff_not]
      intro hle
      exact h ⟨h1, conv90.mp hle⟩
    · left
      simp only [decide_eq_false_iff_not]
      intro hle
      exact h1 (conv65.mp hle)

lemma cleanChar_isUpper_eq_false (c : Char) : (cleanChar c).isUpper = false := by
  show (if (isWordChar c.toLower || isSpaceChar c.toLower) = true
      then c.toLower else ' ').isUpper = false
  split
  · exact toLower_isUpper_eq_false c
  · decide

lemma splitTokens_chars :
    ∀ (l acc : List Char) (w : List Char), w ∈ splitTokens l acc →
      ∀ c ∈ w, c ∈ l ∨ c ∈ acc := by
  intro l
  induction l with
  | nil =>
    intro acc w hw c hc
    unfold splitTokens at hw
    split at hw
    · simp at hw
    · simp only [List.mem_singleton] at hw
      subst hw
      exact Or.inr (List.mem_reverse.mp hc)
  | cons x xs ih =>
    intro acc w hw c hc
    unfold splitTokens at hw
    split at hw
    · split at hw
      · rcases ih [] w hw c hc with h | h
        · exact Or.inl (List.mem_cons_of_mem _ h)
        · simp at h
      · rcases List.mem_cons.mp hw with h | h
        · subst h
          exact Or.inr (List.mem_reverse.mp hc)
        · rcases ih [] w h c hc with h' | h'
          · exact Or.inl (List.mem_cons_of_mem _ h')
          · simp at h'
    · rcases ih (x :: acc) w hw c hc with h | h
      · exact Or.inl (List.mem_cons_of_mem _ h)
      · rcases List.mem_cons.mp h with h' | h'
        · exact Or.inl (h' ▸ List.mem_cons_self _ _)
        · exact Or.inr h'

/-- Unpacking membership in `extract_keywords`: every returned token passes
the keyword filter and all of its characters come from the cleaned text. -/
lemma mem_extract_keywords {text w : String} {n : Nat}
    (h : w ∈ extract_keywords text n) :
    (∀ c ∈ w.data, c.isUpper = false) ∧ n ≤ w.length ∧
      w ∉ stop_words ∧ isAllDigits w.data = false := by
  unfold extract_keywords at h
  rw [List.mem_toFinset] at h
  obtain ⟨tk, htk, rfl⟩ := List.mem_map.mp h
  obtain ⟨hmem, hkeep⟩ := List.mem_filter.mp htk
  unfold keepKeyword at hkeep
  simp only [Bool.and_eq_true, Bool.not_eq_true', decide_eq_true_eq,
    decide_eq_false_iff_not] at hkeep
  obtain ⟨⟨hlen, hstop⟩, hdig⟩ := hkeep
  refine ⟨?_, hlen, hstop, hdig⟩
  intro c hc
  have := splitTokens_chars _ _ _ hmem c hc
  rcases this with hcl | hcl
  · obtain ⟨c₀, _, rfl⟩ := List.mem_map.mp hcl
    exact cleanChar_isUpper_eq_false c₀
  · simp at hcl

/-- Equation lemma for `calculate_similarity` with the intermediate `let`s
expanded. -/
lemma calculate_similarity_def (A B : Finset String) :
    calculate_similarity A B =
      if A = ∅ ∨ B = ∅ then 0
      else if 0 < (A ∪ B).card then ((A ∩ B).card : ℚ) / ((A ∪ B).card : ℚ)
      else 0 := rfl

/-! ## Claim theorems: text processing -/

/-- C3, counterexample: the spec's worked example claims
`extract_keywords("UAE Announces New Economic Policy Today")` contains
"announces", but "announces" is in the news-specific stop-word list and is
filtered out. -/
theorem extract_keywords_example_announces_missing :
    "announces" ∉ extract_keywords "UAE Announces New Economic Policy Today" := by
  decide

/-- C3 (amended): every token returned by `extract_keywords` is lowercase
(no uppercase character), has length at least 3, is not a stop word and is
not purely numeric; on the worked example the result excludes "uae", "new",
"today" and also "announces" (a news stop word), and contains "economic" and
"policy". -/
theorem extract_keywords_postcondition :
    (∀ (text w : String), w ∈ extract_keywords text →
      (∀ c ∈ w.data, c.isUpper = false) ∧ 3 ≤ w.length ∧
        w ∉ stop_words ∧ isAllDigits w.data = false) ∧
    ("uae" ∉ extract_keywords "UAE Announces New Economic Policy Today" ∧
     "new" ∉ extract_keywords "UAE Announces New Economic Policy Today" ∧
     "today" ∉ extract_keywords "UAE Announces New Economic Policy Today" ∧
     "announces" ∉ extract_keywords "UAE Announces New Economic Policy Today" ∧
     "economic" ∈ extract_keywords "UAE Announces New Economic Policy Today" ∧
     "policy" ∈ extract_keywords "UAE Announces New Economic Policy Today") :=
  ⟨fun _ _ h => mem_extract_keywords h, by decide⟩

/-- C4: `calculate_similarity` is the Jaccard index `|A ∩ B| / |A ∪ B|` when
both sets are nonempty, is `0` when either set is empty, and always lies in
`[0, 1]`. -/
theorem calculate_similarity_jaccard_bounds (A B : Finset String) :
    (A ≠ ∅ → B ≠ ∅ →
      calculate_similarity A B = ((A ∩ B).card : ℚ) / ((A ∪ B).card : ℚ)) ∧
    ((A = ∅ ∨ B = ∅) → calculate_similarity A B = 0) ∧
    0 ≤ calculate_similarity A B ∧ calculate_similarity A B ≤ 1 := by
  rcases em (A = ∅ ∨ B = ∅) with h | h
  · rw [calculate_similarity_def, if_pos h]
    exact ⟨fun hA hB => by rcases h with h | h <;> simp_all,
      fun _ => rfl, le_refl 0, zero_le_one⟩
  · have hne := h
    push_neg at hne
    have hU : 0 < (A ∪ B).card := by
      refine Finset.card_pos.mpr ?_
      obtain ⟨a, ha⟩ := Finset.nonempty_iff_ne_empty.mpr hne.1
      exact ⟨a, Finset.mem_union_left _ ha⟩
    rw [calculate_similarity_def, if_neg h, if_pos hU]
    refine ⟨fun _ _ => rfl, fun hc => absurd hc h, by positivity, ?_⟩
    rw [div_le_one (by exact_mod_cast hU)]
    exact_mod_cast Finset.card_le_card (Finset.inter_subset_union)

/-- Witness for C4 at the spec's end-to-end example sets (similarity 2/4). -/
theorem calculate_similarity_jaccard_bounds_witness :
    calculate_similarity {"metro", "expansion", "announced"}
        {"metro", "expansion", "phase"} = 1 / 2 ∧
      0 ≤ calculate_similarity {"metro", "expansion", "announced"}
        {"metro", "expansion", "phase"} := by
  constructor
  · have h := (calculate_similarity_jaccard_bounds
      {"metro", "expansion", "announced"} {"metro", "expansion", "phase"}).1
      (by decide) (by decide)
    have hi : (({"metro", "expansion", "announced"} : Finset String) ∩
        {"metro", "expansion", "phase"}).card = 2 := by decide
    have hu : (({"metro", "expansion", "announced"} : Finset String) ∪
        {"metro", "expansion", "phase"}).card = 4 := by decide
    rw [h, hi, hu]
    norm_num
  · exact (calculate_similarity_jaccard_bounds _ _).2.2.1

/-- C8: the similarity scorer is symmetric. -/
theorem calculate_similarity_comm (A B : Finset String) :
    calculate_similarity A B = calculate_similarity B A := by
  rw [calculate_similarity_def, calculate_similarity_def,
    Finset.inter_comm, Finset.union_comm]
  by_cases h : A = ∅ ∨ B = ∅
  · rw [if_pos h, if_pos h.symm]
  · rw [if_neg h, if_neg (show ¬(B = ∅ ∨ A = ∅) from fun hc => h (Or.symm hc))]

/-! ## Data model of the pipeline -/

/-- The `Article` dataclass: the fields consumed by the clustering pipeline.
`scraped_at` (`datetime`) enters the storage record only as its
`isoformat()` string, so it is modelled as that string. -/
structure Article where
  headline : String
  url : String
  source : String
  summary : String := ""
  image_url : String := ""
  category : String := "general"
  keywords : Finset String := ∅
  scraped_at : String := ""

/-- One item of `db_manager.get_recent_stories(...)`, carrying
`story_id`, `keywords` (a JSON list, turned into a set by the matcher),
`category` and `title`. -/
structure Story where
  story_id : String
  keywords : List String
  category : String
  title : String := ""

/-- The clustering configuration read from `settings`:
`similarity_threshold` (default `0.4`) and `clustering_hours_back`
(default `24`). -/
structure ScraperSettings where
  similarity_threshold : ℚ := 2 / 5
  clustering_hours_back : Nat := 24

/-- The similarity the matcher computes for a candidate story:
`calculate_similarity(article.keywords, set(story.get('keywords', [])))`. -/
def storySim (a : Article) (s : Story) : ℚ :=
  calculate_similarity a.keywords s.keywords.toFinset

/-- A story the acceptance rule can accept for the article: same category and
similarity at least the threshold. -/
def eligible (a : Article) (thr : ℚ) (s : Story) : Prop :=
  s.category = a.category ∧ thr ≤ storySim a s

instance (a : Article) (thr : ℚ) (s : Story) : Decidable (eligible a thr s) := by
  unfold eligible
  infer_instance

/-- The body of the `for story in recent_stories` loop of
`find_matching_story`: the accumulator is `(best_match_id, best_similarity)`,
updated exactly when `similarity > best_similarity and
similarity >= settings.similarity_threshold and
story.get('category') == article.category`. -/
def matchStep (a : Article) (thr : ℚ) (acc : Option String × ℚ) (story : Story) :
    Option String × ℚ :=
  let similarity := storySim a story
  if acc.2 < similarity ∧ thr ≤ similarity ∧ story.category = a.category then
    (some story.story_id, similarity)
  else acc

/-- The pure part of `find_matching_story`: fold the loop over the supplied
recent stories starting from `best_match_id = None`, `best_similarity = 0.0`,
and return the final `best_match_id`. -/
def find_best_story (a : Article) (thr : ℚ) (recent_stories : List Story) :
    Option String :=
  (recent_stories.foldl (matchStep a thr) (none, 0)).1

/-! ## Lemmas about the matcher loop -/

lemma matchStep_def (a : Article) (thr : ℚ) (acc : Option String × ℚ) (s : Story) :
    matchStep a thr acc s =
      if acc.2 < storySim a s ∧ thr ≤ storySim a s ∧ s.category = a.category then
        (some s.story_id, storySim a s)
      else acc := rfl

lemma matchStep_cond_eligible {a : Article} {thr : ℚ} {acc : Option String × ℚ}
    {s : Story} (h : acc.2 < storySim a s ∧ thr ≤ storySim a s ∧
      s.category = a.category) : eligible a thr s :=
  ⟨h.2.2, h.2.1⟩

/-- The loop either leaves the accumulator unchanged, or ends on an eligible
story of the list whose similarity strictly exceeds the initial best score. -/
lemma foldl_matchStep_result (a : Article) (thr : ℚ) :
    ∀ (l : List Story) (acc : Option String × ℚ),
      l.foldl (matchStep a thr) acc = acc ∨
      ∃ s ∈ l, eligible a thr s ∧
        l.foldl (matchStep a thr) acc = (some s.story_id, storySim a s) ∧
        acc.2 < storySim a s := by
  intro l
  induction l with
  | nil => intro acc; exact Or.inl rfl
  | cons t ts ih =>
    intro acc
    rw [List.foldl_cons]
    rw [matchStep_def]
    split
    next hc =>
      rcases ih (some t.story_id, storySim a t) with h | ⟨s, hs, helig, heq, hlt⟩
      · exact Or.inr ⟨t, List.mem_cons_self _ _, matchStep_cond_eligible hc, h, hc.1⟩
      · exact Or.inr ⟨s, List.mem_cons_of_mem _ hs, helig, heq,
          lt_trans hc.1 hlt⟩
    next hc =>
      rcases ih acc with h | ⟨s, hs, helig, heq, hlt⟩
      · exact Or.inl h
      · exact Or.inr ⟨s, List.mem_cons_of_mem _ hs, helig, heq, hlt⟩

/-- The final best similarity dominates the initial one and the similarity of
every eligible story of the list. -/
lemma foldl_matchStep_sim_ge (a : Article) (thr : ℚ) :
    ∀ (l : List Story) (acc : Option String × ℚ),
      acc.2 ≤ (l.foldl (matchStep a thr) acc).2 ∧
      ∀ s ∈ l, eligible a thr s →
        storySim a s ≤ (l.foldl (matchStep a thr) acc).2 := by
  intro l
  induction l with
  | nil => intro acc; exact ⟨le_refl _, by simp⟩
  | cons t ts ih =>
    intro acc
    rw [List.foldl_cons]
    have hstep : acc.2 ≤ (matchStep a thr acc t).2 := by
      rw [matchStep_def]
      split
      next hc => exact le_of_lt hc.1
      next hc => exact le_refl _
    obtain ⟨ih1, ih2⟩ := ih (matchStep a thr acc t)
    refine ⟨le_trans hstep ih1, ?_⟩
    intro s hs helig
    rcases List.mem_cons.mp hs with rfl | hmem
    · -- the head: either it updated the accumulator or it was not better
      refine le_trans ?_ ih1
      rw [matchStep_def]
      split
      next hc => exact le_refl _
      next hc =>
        rcases lt_or_le acc.2 (storySim a s) with hlt | hle
        · exact absurd ⟨hlt, helig.2, helig.1⟩ hc
        · exact hle
    · exact ih2 s hmem helig

/-- If every eligible story of the list scores at most the current best
similarity, the loop changes nothing. -/
lemma foldl_matchStep_no_update (a : Article) (thr : ℚ) :
    ∀ (l : List Story) (bid : Option String) (bs : ℚ),
      (∀ t ∈ l, eligible a thr t → storySim a t ≤ bs) →
      l.foldl (matchStep a thr) (bid, bs) = (bid, bs) := by
  intro l
  induction l with
  | nil => intro bid bs _; rfl
  | cons t ts ih =>
    intro bid bs hb
    rw [List.foldl_cons, matchStep_def]
    split
    next hc =>
      have : storySim a t ≤ bs :=
        hb t (List.mem_cons_self _ _) (matchStep_cond_eligible hc)
      exact absurd hc.1 (not_lt.mpr this)
    next hc =>
      exact ih bid bs (fun u hu helig => hb u (List.mem_cons_of_mem _ hu) helig)

/-- `s` is the first story of the list attaining the maximal similarity among
eligible stories: `s` itself is eligible and maximal, and every story before
it is either not eligible or scores strictly less. -/
inductive IsFirstMax (a : Article) (thr : ℚ) : List Story → Story → Prop
  | head {s : Story} {l : List Story} :
      eligible a thr s →
      (∀ t ∈ l, eligible a thr t → storySim a t ≤ storySim a s) →
      IsFirstMax a thr (s :: l) s
  | cons {t s : Story} {l : List Story} :
      (¬ eligible a thr t ∨ storySim a t < storySim a s) →
      IsFirstMax a thr l s → IsFirstMax a thr (t :: l) s

lemma IsFirstMax.eligible_self {a : Article} {thr : ℚ} {l : List Story}
    {s : Story} : IsFirstMax a thr l s → eligible a thr s := by
  intro h
  induction h with
  | head he _ => exact he
  | cons _ _ ih => exact ih

/-- Starting below the maximal similarity, the loop returns exactly the first
eligible story attaining it. -/
lemma foldl_matchStep_firstmax {a : Article} {thr : ℚ} {l : List Story}
    {s : Story} (hfm : IsFirstMax a thr l s) :
    ∀ (bid : Option String) (bs : ℚ), bs < storySim a s →
      l.foldl (matchStep a thr) (bid, bs) = (some s.story_id, storySim a s) := by
  induction hfm with
  | head he hmax =>
    intro bid bs hbs
    rw [List.foldl_cons, matchStep_def, if_pos ⟨hbs, he.2, he.1⟩]
    exact foldl_matchStep_no_update _ _ _ _ _ hmax
  | cons hskip _ ih =>
    intro bid bs hbs
    rw [List.foldl_cons, matchStep_def]
    split
    next hc =>
      rcases hskip with hne | hlt
      · exact absurd (matchStep_cond_eligible hc) hne
      · exact ih _ _ hlt
    next hc => exact ih bid bs hbs

/-! ## Pipeline (`find_matching_story` and `process_article`) -/

/-- The record built in `process_article` and handed to the storage
collaborator.  `keywords` is `list(article.keywords)` (a list in unspecified
order, modelled as the underlying set); `story_id` and `is_primary_article`
are set by the branch taken. -/
structure ArticleData where
  timestamp : String
  text_content : String
  source : String
  link : String
  title : String
  category : String
  keywords : Finset String
  story_id : String
  is_primary_article : Bool
deriving DecidableEq

/-- A call made to the storage collaborator `db_manager`, recorded so the
claims can talk about which calls a run performs. -/
inductive DbCall where
  | linkExists (url : String)
  | getRecentStories (hoursBack : Nat)
  | addArticleToStory (d : ArticleData) (sid : String)
  | createArticle (d : ArticleData)
deriving DecidableEq

/-- The storage collaborator interface consumed by the pipeline.  Every call
may raise (network error, non-2xx, timeout), encoded as `Except Unit`;
`add_article_to_story` and `create_article` return the new identifier or
`None`. -/
structure DbManager where
  link_exists : String → Except Unit Bool
  get_recent_stories : Nat → Except Unit (List Story)
  add_article_to_story : ArticleData → String → Except Unit (Option String)
  create_article : ArticleData → Except Unit (Option String)

/-- `UAENewsScraper.find_matching_story`: fetch the recent stories for the
configured window and run the matching loop; the surrounding
`try/except` turns any error of the fetch into a `None` result.  The second
component records the collaborator calls made. -/
def find_matching_story (st : ScraperSettings) (db : DbManager) (a : Article) :
    Option String × List DbCall :=
  match db.get_recent_stories st.clustering_hours_back with
  | .error _ => (none, [DbCall.getRecentStories st.clustering_hours_back])
  | .ok recent_stories =>
    (find_best_story a st.similarity_threshold recent_stories,
     [DbCall.getRecentStories st.clustering_hours_back])

/-- The `article_data` dict of `process_article` after the branch filled in
`story_id` and `is_primary_article`; `text_content` is
`article.summary or article.headline`. -/
def article_data (a : Article) (sid : String) (is_primary : Bool) : ArticleData :=
  { timestamp := a.scraped_at
    text_content := if a.summary ≠ "" then a.summary else a.headline
    source := a.source
    link := a.url
    title := a.headline
    category := a.category
    keywords := a.keywords
    story_id := sid
    is_primary_article := is_primary }

/-- `article_id is not None` after a submit call, with a raised exception
caught by the surrounding `try/except` (yielding `False`). -/
def submit_result : Except Unit (Option String) → Bool
  | .error _ => false
  | .ok v => v.isSome

/-- `UAENewsScraper.process_article`: duplicate check, story matching, then
submit to the matched story (`is_primary_article=False`) or as a new story
under a freshly minted id (`is_primary_article=True`).  `uuid` is the value
of `str(uuid.uuid4())` for this run.  Every collaborator exception is caught
and yields `False`; the call trace is returned alongside the boolean. -/
def process_article (st : ScraperSettings) (db : DbManager) (uuid : String)
    (a : Article) : Bool × List DbCall :=
  match db.link_exists a.url with
  | .error _ => (false, [DbCall.linkExists a.url])
  | .ok true => (false, [DbCall.linkExists a.url])
  | .ok false =>
    let fm := find_matching_story st db a
    let calls := DbCall.linkExists a.url :: fm.2
    match fm.1 with
    | some sid =>
      let d := article_data a sid false
      (submit_result (db.add_article_to_story d sid),
       calls ++ [DbCall.addArticleToStory d sid])
    | none =>
      let d := article_data a uuid true
      (submit_result (db.create_article d),
       calls ++ [DbCall.createArticle d])

/-! ## Lemmas about the pipeline -/

lemma find_matching_story_calls (st : ScraperSettings) (db : DbManager)
    (a : Article) :
    (find_matching_story st db a).2 =
      [DbCall.getRecentStories st.clustering_hours_back] := by
  unfold find_matching_story
  rcases db.get_recent_stories st.clustering_hours_back with e | stories <;> rfl

lemma find_matching_story_ok {st : ScraperSettings} {db : DbManager}
    {a : Article} {stories : List Story}
    (hdb : db.get_recent_stories st.clustering_hours_back = .ok stories) :
    (find_matching_story st db a).1 =
      find_best_story a st.similarity_threshold stories := by
  unfold find_matching_story
  rw [hdb]

lemma find_matching_story_error {st : ScraperSettings} {db : DbManager}
    {a : Article}
    (hdb : db.get_recent_stories st.clustering_hours_back = .error ()) :
    (find_matching_story st db a).1 = none := by
  unfold find_matching_story
  rw [hdb]

lemma process_article_link_error {st : ScraperSettings} {db : DbManager}
    {uuid : String} {a : Article}
    (h : db.link_exists a.url = .error ()) :
    process_article st db uuid a = (false, [DbCall.linkExists a.url]) := by
  unfold process_article
  rw [h]

lemma process_article_duplicate {st : ScraperSettings} {db : DbManager}
    {uuid : String} {a : Article}
    (h : db.link_exists a.url = .ok true) :
    process_article st db uuid a = (false, [DbCall.linkExists a.url]) := by
  unfold process_article
  rw [h]

lemma process_article_matched {st : ScraperSettings} {db : DbManager}
    {uuid : String} {a : Article} {sid : String}
    (h1 : db.link_exists a.url = .ok false)
    (h2 : (find_matching_story st db a).1 = some sid) :
    process_article st db uuid a =
      (submit_result (db.add_article_to_story (article_data a sid false) sid),
       DbCall.linkExists a.url :: (find_matching_story st db a).2 ++
         [DbCall.addArticleToStory (article_data a sid false) sid]) := by
  unfold process_article
  rw [h1]
  simp only [h2]

lemma process_article_unmatched {st : ScraperSettings} {db : DbManager}
    {uuid : String} {a : Article}
    (h1 : db.link_exists a.url = .ok false)
    (h2 : (find_matching_story st db a).1 = none) :
    process_article st db uuid a =
      (submit_result (db.create_article (article_data a uuid true)),
       DbCall.linkExists a.url :: (find_matching_story st db a).2 ++
         [DbCall.createArticle (article_data a uuid true)]) := by
  unfold process_article
  rw [h1]
  simp only [h2]

/-! ## Claim theorems: story matcher -/

/-- C1: with the recent stories supplied by the collaborator,
`find_matching_story` returns `None` exactly when no same-category story
reaches the similarity threshold, and every returned `story_id` is that of a
same-category story above the threshold whose similarity is maximal among
such stories (`eligible` = same category and similarity ≥ threshold).  The
configured threshold is positive (default 0.4). -/
theorem find_matching_story_best_above_threshold
    (st : ScraperSettings) (db : DbManager) (a : Article) (stories : List Story)
    (hthr : 0 < st.similarity_threshold)
    (hdb : db.get_recent_stories st.clustering_hours_back = .ok stories) :
    ((find_matching_story st db a).1 = none ↔
      ∀ s ∈ stories, ¬ eligible a st.similarity_threshold s) ∧
    (∀ sid, (find_matching_story st db a).1 = some sid →
      ∃ s ∈ stories, s.story_id = sid ∧ eligible a st.similarity_threshold s ∧
        ∀ t ∈ stories, eligible a st.similarity_threshold t →
          storySim a t ≤ storySim a s) := by
  rw [find_matching_story_ok hdb]
  unfold find_best_story
  constructor
  · constructor
    · intro hnone s hs helig
      rcases foldl_matchStep_result a st.similarity_threshold stories (none, 0)
        with h | ⟨t, ht, _, heq, _⟩
      · have h2 := (foldl_matchStep_sim_ge a st.similarity_threshold stories
          (none, 0)).2 s hs helig
        rw [h] at h2
        exact absurd (lt_of_lt_of_le hthr helig.2) (not_lt.mpr h2)
      · rw [heq] at hnone
        simp at hnone
    · intro hall
      rcases foldl_matchStep_result a st.similarity_threshold stories (none, 0)
        with h | ⟨t, ht, helig', _, _⟩
      · rw [h]
      · exact absurd helig' (hall t ht)
  · intro sid hsid
    rcases foldl_matchStep_result a st.similarity_threshold stories (none, 0)
      with h | ⟨t, ht, helig', heq, _⟩
    · rw [h] at hsid
      simp at hsid
    · rw [heq] at hsid
      simp only [Option.some.injEq] at hsid
      refine ⟨t, ht, hsid, helig', ?_⟩
      intro u hu heligu
      have hle := (foldl_matchStep_sim_ge a st.similarity_threshold stories
        (none, 0)).2 u hu heligu
      rw [heq] at hle
      exact hle

/-- C2: the category gate dominates similarity — a `story_id` returned by
`find_matching_story` always belongs to a recent story whose category equals
the article's category, whatever the similarity scores. -/
theorem find_matching_story_category_gate
    (st : ScraperSettings) (db : DbManager) (a : Article) (stories : List Story)
    (sid : String)
    (hdb : db.get_recent_stories st.clustering_hours_back = .ok stories)
    (h : (find_matching_story st db a).1 = some sid) :
    ∃ s ∈ stories, s.story_id = sid ∧ s.category = a.category := by
  rw [find_matching_story_ok hdb] at h
  unfold find_best_story at h
  rcases foldl_matchStep_result a st.similarity_threshold stories (none, 0)
    with hr | ⟨t, ht, helig, heq, _⟩
  · rw [hr] at h
    simp at h
  · rw [heq] at h
    simp only [Option.some.injEq] at h
    exact ⟨t, ht, h, helig.1⟩

/-- C9: ties are broken by iteration order — if `s` is the first story of the
supplied collection that is eligible (same category, similarity ≥ threshold)
with maximal similarity, in particular when several stories attain the same
maximal similarity, `find_matching_story` returns `s`'s `story_id`. -/
theorem find_matching_story_first_tie
    (st : ScraperSettings) (db : DbManager) (a : Article) (stories : List Story)
    (s : Story)
    (hthr : 0 < st.similarity_threshold)
    (hdb : db.get_recent_stories st.clustering_hours_back = .ok stories)
    (hfm : IsFirstMax a st.similarity_threshold stories s) :
    (find_matching_story st db a).1 = some s.story_id := by
  rw [find_matching_story_ok hdb]
  unfold find_best_story
  rw [foldl_matchStep_firstmax hfm none 0
    (lt_of_lt_of_le hthr hfm.eligible_self.2)]

/-! ## Claim theorems: pipeline -/

/-- C6: when the duplicate check reports the link as existing,
`process_article` returns the skip outcome (`False`) after the single
`link_exists` call, and neither `create_article` nor `add_article_to_story`
is invoked. -/
theorem process_article_duplicate_skip
    (st : ScraperSettings) (db : DbManager) (uuid : String) (a : Article)
    (h : db.link_exists a.url = .ok true) :
    process_article st db uuid a = (false, [DbCall.linkExists a.url]) ∧
    (∀ d, DbCall.createArticle d ∉ (process_article st db uuid a).2) ∧
    (∀ d sid, DbCall.addArticleToStory d sid ∉ (process_article st db uuid a).2) := by
  rw [process_article_duplicate h]
  refine ⟨rfl, ?_, ?_⟩ <;> simp

/-- C7: for a non-duplicate article with no matching story, `process_article`
builds a record flagged `is_primary_article = true` whose `story_id` is the
freshly minted uuid — distinct from every recent story's id whenever the
uuid oracle is fresh — submits it via `create_article`, and never calls
`add_article_to_story`. -/
theorem process_article_new_story
    (st : ScraperSettings) (db : DbManager) (uuid : String) (a : Article)
    (h1 : db.link_exists a.url = .ok false)
    (h2 : (find_matching_story st db a).1 = none)
    (hfresh : ∀ stories,
      db.get_recent_stories st.clustering_hours_back = .ok stories →
      ∀ s ∈ stories, s.story_id ≠ uuid) :
    (article_data a uuid true).is_primary_article = true ∧
    (article_data a uuid true).story_id = uuid ∧
    (∀ stories, db.get_recent_stories st.clustering_hours_back = .ok stories →
      ∀ s ∈ stories, s.story_id ≠ (article_data a uuid true).story_id) ∧
    (process_article st db uuid a).1 =
      submit_result (db.create_article (article_data a uuid true)) ∧
    DbCall.createArticle (article_data a uuid true) ∈
      (process_article st db uuid a).2 ∧
    (∀ d sid, DbCall.addArticleToStory d sid ∉ (process_article st db uuid a).2) := by
  rw [process_article_unmatched h1 h2, find_matching_story_calls]
  refine ⟨rfl, rfl, hfresh, rfl, ?_, ?_⟩ <;> simp

/-- C5 (amended): a failing duplicate check and a failing submit call each
yield the per-article failure outcome `False` (exceptions are caught, never
re-raised: `process_article` is a total function into `Bool`); but a failing
`get_recent_stories` is swallowed inside `find_matching_story` (which returns
`None`), so the article is processed through the new-story branch instead of
being reported as failed. -/
theorem process_article_failure_isolation
    (st : ScraperSettings) (db : DbManager) (uuid : String) (a : Article) :
    (db.link_exists a.url = .error () → (process_article st db uuid a).1 = false) ∧
    (∀ sid, db.link_exists a.url = .ok false →
      (find_matching_story st db a).1 = some sid →
      db.add_article_to_story (article_data a sid false) sid = .error () →
      (process_article st db uuid a).1 = false) ∧
    (db.link_exists a.url = .ok false →
      (find_matching_story st db a).1 = none →
      db.create_article (article_data a uuid true) = .error () →
      (process_article st db uuid a).1 = false) ∧
    (db.link_exists a.url = .ok false →
      db.get_recent_stories st.clustering_hours_back = .error () →
      (process_article st db uuid a).1 =
        submit_result (db.create_article (article_data a uuid true))) := by
  refine ⟨?_, ?_, ?_, ?_⟩
  · intro h
    rw [process_article_link_error h]
  · intro sid h1 h2 h3
    rw [process_article_matched h1 h2, h3]
    rfl
  · intro h1 h2 h3
    rw [process_article_unmatched h1 h2, h3]
    rfl
  · intro h1 hdb
    rw [process_article_unmatched h1 (find_matching_story_error hdb)]

/-- C10: the public interface of `process_article` is a plain boolean —
`True` exactly when the article passed the duplicate check and the submit
call of the branch taken returned a non-`None` identifier; a duplicate link
and a failed duplicate check both yield `False`, indistinguishably. -/
theorem process_article_boolean_interface
    (st : ScraperSettings) (db : DbManager) (uuid : String) (a : Article) :
    ((process_article st db uuid a).1 = true ↔
      db.link_exists a.url = .ok false ∧
      ((∃ sid, (find_matching_story st db a).1 = some sid ∧
          ∃ i, db.add_article_to_story (article_data a sid false) sid =
            .ok (some i)) ∨
       ((find_matching_story st db a).1 = none ∧
          ∃ i, db.create_article (article_data a uuid true) = .ok (some i)))) ∧
    (db.link_exists a.url = .ok true → (process_article st db uuid a).1 = false) ∧
    (db.link_exists a.url = .error () → (process_article st db uuid a).1 = false) := by
  refine ⟨?_, fun h => by rw [process_article_duplicate h],
    fun h => by rw [process_article_link_error h]⟩
  rcases hle : db.link_exists a.url with e | b
  · cases e
    rw [process_article_link_error hle]
    simp
  · cases b
    · rcases hfm : (find_matching_story st db a).1 with _ | sid
      · rw [process_article_unmatched hle hfm]
        rcases hc : db.create_article (article_data a uuid true) with e | v
        · cases e
          simp [submit_result, hfm, hc]
        · rcases v with _ | i <;> simp [submit_result, hfm, hc]
      · rw [process_article_matched hle hfm]
        rcases ha : db.add_article_to_story (article_data a sid false) sid
          with e | v
        · cases e
          simp [submit_result, hfm, ha]
        · rcases v with _ | i <;> simp [submit_result, hfm, ha]
    · rw [process_article_duplicate hle]
      simp [hle]

/-! ## Concrete data for witnesses and counterexamples -/

/-- Default settings: `similarity_threshold = 0.4`,
`clustering_hours_back = 24`. -/
def exSettings : ScraperSettings := {}

lemma exSettings_threshold : exSettings.similarity_threshold = 2 / 5 := rfl

def exArticle : Article :=
  { headline := "Metro expansion plan detailed"
    url := "https://example.com/metro"
    source := "Example News"
    summary := ""
    category := "economy"
    keywords := {"k1", "k2", "k3", "k4"}
    scraped_at := "2026-01-01T00:00:00" }

def s06 : Story := { story_id := "story-06", keywords := ["k1", "k2", "k3", "x1"], category := "economy" }

def s08 : Story := { story_id := "story-08", keywords := ["k1", "k2", "k3", "k4", "y1"], category := "economy" }

def sportsStory : Story := { story_id := "story-sp", keywords := ["k1", "k2", "k3", "k4"], category := "sports" }

def tie1 : Story := { story_id := "story-1", keywords := ["k1", "k2", "k3", "k4"], category := "economy" }

def tie2 : Story := { story_id := "story-2", keywords := ["k1", "k2", "k3", "k4"], category := "economy" }

def polArticle : Article :=
  { headline := "Vote on the election law"
    url := "https://example.com/vote"
    source := "Example News"
    category := "politics"
    keywords := {"k1", "k2", "k3", "k4"} }

/-- Storage stub: never a duplicate, recent stories `[s06, s08]`, submits
succeed. -/
def exDb : DbManager :=
  { link_exists := fun _ => .ok false
    get_recent_stories := fun _ => .ok [s06, s08]
    add_article_to_story := fun _ _ => .ok (some "article-1")
    create_article := fun _ => .ok (some "article-2") }

/-- Storage stub whose recent stories hold a single sports story. -/
def sportsDb : DbManager :=
  { link_exists := fun _ => .ok false
    get_recent_stories := fun _ => .ok [sportsStory]
    add_article_to_story := fun _ _ => .ok (some "article-1")
    create_article := fun _ => .ok (some "article-2") }

/-- Storage stub with two equally similar recent stories. -/
def tieDb : DbManager :=
  { link_exists := fun _ => .ok false
    get_recent_stories := fun _ => .ok [tie1, tie2]
    add_article_to_story := fun _ _ => .ok (some "article-1")
    create_article := fun _ => .ok (some "article-2") }

/-- Storage stub reporting every link as already present. -/
def dupDb : DbManager :=
  { link_exists := fun _ => .ok true
    get_recent_stories := fun _ => .ok []
    add_article_to_story := fun _ _ => .ok (some "article-1")
    create_article := fun _ => .ok (some "article-2") }

/-- Storage stub with no recent stories. -/
def emptyDb : DbManager :=
  { link_exists := fun _ => .ok false
    get_recent_stories := fun _ => .ok []
    add_article_to_story := fun _ _ => .ok (some "article-1")
    create_article := fun _ => .ok (some "article-2") }

/-- Storage stub whose duplicate check raises. -/
def linkErrDb : DbManager :=
  { link_exists := fun _ => .error ()
    get_recent_stories := fun _ => .ok []
    add_article_to_story := fun _ _ => .ok (some "article-1")
    create_article := fun _ => .ok (some "article-2") }

/-- Storage stub whose recent-stories fetch raises but whose submits
succeed. -/
def fetchFailDb : DbManager :=
  { link_exists := fun _ => .ok false
    get_recent_stories := fun _ => .error ()
    add_article_to_story := fun _ _ => .error ()
    create_article := fun _ => .ok (some "article-9") }

lemma storySim_ex_s06 : storySim exArticle s06 = 3 / 5 := by
  have hi : (exArticle.keywords ∩ s06.keywords.toFinset).card = 3 := by decide
  have hu : (exArticle.keywords ∪ s06.keywords.toFinset).card = 5 := by decide
  unfold storySim
  rw [calculate_similarity_def, if_neg (by decide), if_pos (by rw [hu]; norm_num),
    hi, hu]
  norm_num

lemma storySim_ex_s08 : storySim exArticle s08 = 4 / 5 := by
  have hi : (exArticle.keywords ∩ s08.keywords.toFinset).card = 4 := by decide
  have hu : (exArticle.keywords ∪ s08.keywords.toFinset).card = 5 := by decide
  unfold storySim
  rw [calculate_similarity_def, if_neg (by decide), if_pos (by rw [hu]; norm_num),
    hi, hu]
  norm_num

lemma storySim_ex_tie1 : storySim exArticle tie1 = 1 := by
  have hi : (exArticle.keywords ∩ tie1.keywords.toFinset).card = 4 := by decide
  have hu : (exArticle.keywords ∪ tie1.keywords.toFinset).card = 4 := by decide
  unfold storySim
  rw [calculate_similarity_def, if_neg (by decide), if_pos (by rw [hu]; norm_num),
    hi, hu]
  norm_num

lemma storySim_ex_tie2 : storySim exArticle tie2 = 1 := by
  have hi : (exArticle.keywords ∩ tie2.keywords.toFinset).card = 4 := by decide
  have hu : (exArticle.keywords ∪ tie2.keywords.toFinset).card = 4 := by decide
  unfold storySim
  rw [calculate_similarity_def, if_neg (by decide), if_pos (by rw [hu]; norm_num),
    hi, hu]
  norm_num

/-- The matching loop on `[s06, s08]` (similarities 0.6 and 0.8, threshold
0.4) returns the 0.8 story. -/
lemma find_best_ex : find_best_story exArticle (2 / 5) [s06, s08] = some "story-08" := by
  unfold find_best_story
  rw [List.foldl_cons, matchStep_def, storySim_ex_s06,
    if_pos ⟨by norm_num, by norm_num, rfl⟩]
  rw [List.foldl_cons, matchStep_def, storySim_ex_s08,
    if_pos ⟨by norm_num, by norm_num, rfl⟩]
  rfl

/-- The matching loop never selects the sports story for a politics
article. -/
lemma find_best_sports_none :
    find_best_story polArticle (2 / 5) [sportsStory] = none := by
  unfold find_best_story
  rw [List.foldl_cons, matchStep_def,
    if_neg (fun hc => absurd hc.2.2 (by decide))]
  rfl

/-! ## Witnesses and counterexamples -/

/-- Witness for C1: threshold 0.4, two economy stories with similarities 0.6
and 0.8; the matcher returns the 0.8 story, and the theorem's conclusion
holds at this input. -/
theorem find_matching_story_best_witness :
    (0 : ℚ) < 2 / 5 ∧
    (find_matching_story exSettings exDb exArticle).1 = some "story-08" ∧
    ∃ s ∈ [s06, s08], s.story_id = "story-08" ∧
      eligible exArticle exSettings.similarity_threshold s ∧
      ∀ t ∈ [s06, s08], eligible exArticle exSettings.similarity_threshold t →
        storySim exArticle t ≤ storySim exArticle s := by
  have h2 : (find_matching_story exSettings exDb exArticle).1 = some "story-08" := by
    rw [find_matching_story_ok rfl]
    exact find_best_ex
  exact ⟨by norm_num, h2,
    (find_matching_story_best_above_threshold exSettings exDb exArticle
      [s06, s08] (by rw [exSettings_threshold]; norm_num) rfl).2 "story-08" h2⟩

/-- Witness for C2: a maximally similar sports story is never returned for a
politics article, and the returned id of the C1 run belongs to a
same-category story. -/
theorem find_matching_story_category_gate_witness :
    (find_matching_story exSettings sportsDb polArticle).1 = none ∧
    ∃ s ∈ [s06, s08], s.story_id = "story-08" ∧ s.category = exArticle.category := by
  refine ⟨?_, find_matching_story_category_gate exSettings exDb exArticle
    [s06, s08] "story-08" rfl ?_⟩
  · rw [find_matching_story_ok rfl]
    exact find_best_sports_none
  · rw [find_matching_story_ok rfl]
    exact find_best_ex

/-- Witness for C9: two stories with the same maximal similarity 1; the first
one in iteration order is returned. -/
theorem find_matching_story_first_tie_witness :
    storySim exArticle tie1 = storySim exArticle tie2 ∧
    (find_matching_story exSettings tieDb exArticle).1 = some "story-1" := by
  constructor
  · rw [storySim_ex_tie1, storySim_ex_tie2]
  · have hfm : IsFirstMax exArticle exSettings.similarity_threshold [tie1, tie2] tie1 := by
      refine IsFirstMax.head ⟨rfl, ?_⟩ ?_
      · rw [storySim_ex_tie1, exSettings_threshold]
        norm_num
      · intro t ht _
        rcases List.mem_singleton.mp ht with rfl
        rw [storySim_ex_tie1, storySim_ex_tie2]
    exact find_matching_story_first_tie exSettings tieDb exArticle [tie1, tie2]
      tie1 (by rw [exSettings_threshold]; norm_num) rfl hfm

/-- Witness for C6: a duplicate link is skipped with no submit call. -/
theorem process_article_duplicate_skip_witness :
    process_article exSettings dupDb "uuid-1" exArticle =
      (false, [DbCall.linkExists exArticle.url]) ∧
    (∀ d, DbCall.createArticle d ∉
      (process_article exSettings dupDb "uuid-1" exArticle).2) ∧
    (∀ d sid, DbCall.addArticleToStory d sid ∉
      (process_article exSettings dupDb "uuid-1" exArticle).2) :=
  process_article_duplicate_skip exSettings dupDb "uuid-1" exArticle rfl

/-- Witness for C7: no recent stories, so a new story is created with the
minted uuid and `is_primary_article = true`. -/
theorem process_article_new_story_witness :
    (article_data exArticle "uuid-1" true).is_primary_article = true ∧
    (article_data exArticle "uuid-1" true).story_id = "uuid-1" ∧
    (∀ stories, emptyDb.get_recent_stories exSettings.clustering_hours_back = .ok stories →
      ∀ s ∈ stories, s.story_id ≠ (article_data exArticle "uuid-1" true).story_id) ∧
    (process_article exSettings emptyDb "uuid-1" exArticle).1 =
      submit_result (emptyDb.create_article (article_data exArticle "uuid-1" true)) ∧
    DbCall.createArticle (article_data exArticle "uuid-1" true) ∈
      (process_article exSettings emptyDb "uuid-1" exArticle).2 ∧
    (∀ d sid, DbCall.addArticleToStory d sid ∉
      (process_article exSettings emptyDb "uuid-1" exArticle).2) :=
  process_article_new_story exSettings emptyDb "uuid-1" exArticle rfl
    (by rw [find_matching_story_ok rfl]; rfl)
    (by
      intro stories h s hs
      cases h
      exact absurd hs (List.not_mem_nil s))

/-- Counterexample for C5: the recent-stories fetch fails, yet
`process_article` reports success (`True`): the failure is not surfaced as a
per-article failure outcome — the article silently becomes a new story. -/
theorem process_article_fetch_failure_not_failure :
    fetchFailDb.get_recent_stories exSettings.clustering_hours_back = .error () ∧
    (process_article exSettings fetchFailDb "uuid-1" exArticle).1 = true := by
  refine ⟨rfl, ?_⟩
  rw [process_article_unmatched rfl (find_matching_story_error rfl)]
  rfl

/-- Witness for C5 (amended): a failing duplicate check yields `False`; a
failing recent-stories fetch routes the article into the new-story branch. -/
theorem process_article_failure_isolation_witness :
    (process_article exSettings linkErrDb "uuid-1" exArticle).1 = false ∧
    (process_article exSettings fetchFailDb "uuid-1" exArticle).1 =
      submit_result (fetchFailDb.create_article (article_data exArticle "uuid-1" true)) :=
  ⟨(process_article_failure_isolation exSettings linkErrDb "uuid-1" exArticle).1 rfl,
   (process_article_failure_isolation exSettings fetchFailDb "uuid-1" exArticle).2.2.2 rfl rfl⟩

/-- Witness for C10: a duplicate link and a failed duplicate check are both
reported as the same plain `False`. -/
theorem process_article_boolean_interface_witness :
    (process_article exSettings dupDb "uuid-1" exArticle).1 = false ∧
    (process_article exSettings linkErrDb "uuid-1" exArticle).1 = false :=
  ⟨(process_article_boolean_interface exSettings dupDb "uuid-1" exArticle).2.1 rfl,
   (process_article_boolean_interface exSettings linkErrDb "uuid-1" exArticle).2.2 rfl⟩

end UAEScraper
